import Mathlib

/-!
Shallow embedding of the Token Lifecycle subsystem of the
Tenant-Fix-Services backend, translated from
src/app/utils/tokenManager.ts and the refresh-token / user mongoose
schemas in src/app/models.  Machine dates are modelled as Nat
milliseconds; each operation that reads the clock takes an explicit
`now` argument.  The mongoose collection is modelled as a list in
insertion order (findOne scans natural order); store-assigned ids and
the crypto entropy source are modelled as counters threaded through the
state.  Raw refresh-token strings are opaque values compared only for
equality, so they are embedded as an inductive type whose `gen n`
constructor is the value returned by the n-th draw of
crypto.randomBytes(64).toString("hex") and whose `ext s` constructor is
any other string a caller may present.
-/

namespace TokenLifecycle

/-- Opaque refresh-token secret strings (crypto.randomBytes draws are
`gen n`; arbitrary externally supplied strings are `ext s`). -/
inductive RToken where
  | gen (n : Nat)
  | ext (s : String)
deriving DecidableEq

/-- DeviceInfo from tokenManager.ts: optional userAgent / ip / deviceId. -/
structure DeviceInfo where
  userAgent : Option String
  ip : Option String
  deviceId : Option String
deriving DecidableEq

/-- AppError from middleware/globalErrorHandler.ts: message, HTTP status
code and a machine-readable error code. -/
structure AppError where
  message : String
  statusCode : Nat
  code : String
deriving DecidableEq

/-- TokenPayload from tokenManager.ts: the claims the code signs into an
access token. -/
structure TokenPayload where
  userId : String
  role : String
  email : String
deriving DecidableEq

/-- A well-formed signed JWT.  JWT payloads are open JSON objects, so a
signed token may carry an extra claim (for example a type claim) beyond
the fields in TokenPayload; jwt.verify returns the payload without
inspecting such claims, so the model records it in `typClaim`.  The code
itself always signs with `typClaim := none`.  The signature is modelled
by recording which secret produced it: verification against a secret
succeeds exactly when the recorded secret matches. -/
structure Jwt where
  payload : TokenPayload
  typClaim : Option String
  secret : String
  exp : Nat
deriving DecidableEq

/-- An access-token string: either a well-formed signed JWT or any other
(malformed) string. -/
inductive AccessToken where
  | signed (j : Jwt)
  | malformed (s : String)
deriving DecidableEq

/-- The two jsonwebtoken failure classes the code distinguishes:
TokenExpiredError and JsonWebTokenError. -/
inductive JwtError where
  | expired
  | invalid
deriving DecidableEq

/-- The user fields the token lifecycle reads (user.model.ts). -/
structure UserRec where
  id : String
  role : String
  email : String
  isActive : Bool
deriving DecidableEq

/-- A refresh-token document (refreshToken.model.ts): the schema has
timestamps enabled, so createdAt/updatedAt are maintained by every
write. -/
structure RefreshTokenRec where
  id : Nat
  userId : String
  token : RToken
  expiresAt : Nat
  isActive : Bool
  deviceInfo : Option DeviceInfo
  createdAt : Nat
  updatedAt : Nat
deriving DecidableEq

/-- The persistent store: the RefreshToken collection in insertion
order, the User collection, the next store-assigned id, and the entropy
counter feeding crypto.randomBytes. -/
structure DB where
  tokens : List RefreshTokenRec
  users : List UserRec
  nextId : Nat
  entropy : Nat
deriving DecidableEq

/-- TokenPair from tokenManager.ts. -/
structure TokenPair where
  accessToken : AccessToken
  refreshToken : RToken
deriving DecidableEq

/-- Default access-token signing secret (constructor default). -/
def ACCESS_TOKEN_SECRET : String := "access-secret-key"

/-- 15 minutes in milliseconds (JWT_ACCESS_EXPIRES_IN default "15m"). -/
def accessTokenExpiresMs : Nat := 15 * 60 * 1000

/-- One day in milliseconds. -/
def dayMs : Nat := 24 * 60 * 60 * 1000

/-- REFRESH_TOKEN_EXPIRES_DAYS default 7, as milliseconds (the code adds
7 calendar days to the current date; modelled as fixed-length days). -/
def refreshTokenExpiresMs : Nat := 7 * dayMs

/-- AppError thrown when jwt.verify raises TokenExpiredError. -/
def accessTokenExpiredError : AppError :=
  { message := "Access token has expired", statusCode := 401, code := "ACCESS_TOKEN_EXPIRED" }

/-- AppError thrown when jwt.verify raises JsonWebTokenError. -/
def invalidAccessTokenError : AppError :=
  { message := "Invalid access token", statusCode := 401, code := "INVALID_ACCESS_TOKEN" }

/-- AppError thrown by verifyRefreshToken when the lookup finds nothing. -/
def invalidRefreshError : AppError :=
  { message := "Invalid or expired refresh token", statusCode := 401, code := "INVALID_REFRESH_TOKEN" }

/-- AppError thrown by refreshAccessToken when the populated user is
missing or inactive. -/
def userInactiveError : AppError :=
  { message := "User not found or inactive", statusCode := 401, code := "USER_INACTIVE" }

/-- jwt.sign: records the payload, any extra claim, the signing secret
and the absolute expiry instant now + ttl. -/
def jwtSign (p : TokenPayload) (typClaim : Option String) (secret : String)
    (now ttlMs : Nat) : AccessToken :=
  .signed { payload := p, typClaim := typClaim, secret := secret, exp := now + ttlMs }

/-- jwt.verify(token, secret): malformed input or a signature made with
a different secret raises JsonWebTokenError; a well-formed, correctly
signed token whose expiry has passed (now > exp) raises
TokenExpiredError; otherwise the payload is returned. -/
def jwtVerify (t : AccessToken) (secret : String) (now : Nat) :
    Except JwtError TokenPayload :=
  match t with
  | .malformed _ => .error .invalid
  | .signed j =>
    if j.secret ≠ secret then .error .invalid
    else if j.exp < now then .error .expired
    else .ok j.payload

/-- TokenManager.generateAccessToken: signs {userId, role, email} with
the access secret and a 15-minute expiry. -/
def generateAccessToken (u : UserRec) (now : Nat) : AccessToken :=
  jwtSign { userId := u.id, role := u.role, email := u.email } none
    ACCESS_TOKEN_SECRET now accessTokenExpiresMs

/-- TokenManager.verifyAccessToken: delegates to jwt.verify and maps
TokenExpiredError to ACCESS_TOKEN_EXPIRED and JsonWebTokenError to
INVALID_ACCESS_TOKEN (both 401, distinct codes). -/
def verifyAccessToken (t : AccessToken) (now : Nat) : Except AppError TokenPayload :=
  match jwtVerify t ACCESS_TOKEN_SECRET now with
  | .ok p => .ok p
  | .error .expired => .error accessTokenExpiredError
  | .error .invalid => .error invalidAccessTokenError

/-- The document TokenManager.generateTokenPair saves: the raw refresh
token string itself is stored in the token field (the code computes no
hash), bound to the device info, active, expiring 7 days out. -/
def issuedRecord (db : DB) (now : Nat) (u : UserRec) (dev : Option DeviceInfo) :
    RefreshTokenRec :=
  { id := db.nextId, userId := u.id, token := .gen db.entropy,
    expiresAt := now + refreshTokenExpiresMs, isActive := true,
    deviceInfo := dev, createdAt := now, updatedAt := now }

/-- TokenManager.generateTokenPair: signs an access token, draws a fresh
refresh secret, persists a new active record holding that raw secret,
and returns both raw values. -/
def generateTokenPair (db : DB) (now : Nat) (u : UserRec) (dev : Option DeviceInfo) :
    TokenPair × DB :=
  ({ accessToken := generateAccessToken u now, refreshToken := .gen db.entropy },
   { db with
     tokens := db.tokens ++ [issuedRecord db now u dev]
     nextId := db.nextId + 1
     entropy := db.entropy + 1 })

/-- The findOne filter of TokenManager.verifyRefreshToken:
{token, isActive: true, expiresAt: {$gt: now}}. -/
def matchesActive (t : RToken) (now : Nat) (r : RefreshTokenRec) : Bool :=
  r.token == t && r.isActive && decide (now < r.expiresAt)

/-- RefreshToken.findOne({token, isActive: true, expiresAt: {$gt: now}}):
first matching document in natural order, if any. -/
def findActiveRecord (db : DB) (now : Nat) (t : RToken) : Option RefreshTokenRec :=
  db.tokens.find? (matchesActive t now)

/-- TokenManager.verifyRefreshToken: the lookup above; absent, inactive
and expired records all fail with the single INVALID_REFRESH_TOKEN
error. -/
def verifyRefreshToken (db : DB) (now : Nat) (t : RToken) :
    Except AppError RefreshTokenRec :=
  match findActiveRecord db now t with
  | none => .error invalidRefreshError
  | some r => .ok r

/-- populate("userId"): resolve the owning user document, if it exists. -/
def findUser (db : DB) (uid : String) : Option UserRec :=
  db.users.find? (fun u => u.id == uid)

/-- RefreshToken.findByIdAndUpdate(id, {isActive: false}): flips the
first (only) document with that id to inactive; timestamps bump
updatedAt.  The update is unconditional: it does not test isActive. -/
def deactivateById (now id : Nat) : List RefreshTokenRec → List RefreshTokenRec
  | [] => []
  | r :: rest =>
    if r.id == id then { r with isActive := false, updatedAt := now } :: rest
    else r :: deactivateById now id rest

/-- TokenManager.refreshAccessToken: verify the raw token, require the
populated user to exist and be active, then generate and persist the new
pair, and only afterwards deactivate the old record (plain
findByIdAndUpdate, not a conditional update).  Thrown errors leave the
store untouched, so error results carry the input store unchanged. -/
def refreshAccessToken (db : DB) (now : Nat) (t : RToken) (dev : Option DeviceInfo) :
    Except AppError TokenPair × DB :=
  match verifyRefreshToken db now t with
  | .error e => (.error e, db)
  | .ok r =>
    match findUser db r.userId with
    | none => (.error userInactiveError, db)
    | some u =>
      if !u.isActive then (.error userInactiveError, db)
      else
        (.ok (generateTokenPair db now u dev).1,
         { (generateTokenPair db now u dev).2 with
             tokens := deactivateById now r.id (generateTokenPair db now u dev).2.tokens })

/-- RefreshToken.findOneAndUpdate({token, isActive: true},
{isActive: false}): deactivates the first active document holding this
raw token; matching nothing is not an error. -/
def deactivateFirstActive (now : Nat) (t : RToken) :
    List RefreshTokenRec → List RefreshTokenRec
  | [] => []
  | r :: rest =>
    if r.token == t && r.isActive then
      { r with isActive := false, updatedAt := now } :: rest
    else r :: deactivateFirstActive now t rest

/-- TokenManager.revokeRefreshToken (logout): total, never throws. -/
def revokeRefreshToken (db : DB) (now : Nat) (t : RToken) : DB :=
  { db with tokens := deactivateFirstActive now t db.tokens }

/-- RefreshToken.updateMany({userId, isActive: true}, {isActive: false})
inside TokenManager.revokeAllUserTokens. -/
def revokeAllUserTokens (db : DB) (now : Nat) (uid : String) : DB :=
  { db with tokens := db.tokens.map (fun r =>
      if r.userId == uid && r.isActive then
        { r with isActive := false, updatedAt := now }
      else r) }

/-- The deleteMany filter of TokenManager.cleanupExpiredTokens, negated:
a record survives unless it is already expired (expiresAt < now,
regardless of how recently) or it is inactive with updatedAt older than
24 hours. -/
def keptByCleanup (now : Nat) (r : RefreshTokenRec) : Bool :=
  !(decide (r.expiresAt < now) || (!r.isActive && decide (r.updatedAt + dayMs < now)))

/-- TokenManager.cleanupExpiredTokens. -/
def cleanupExpiredTokens (db : DB) (now : Nat) : DB :=
  { db with tokens := db.tokens.filter (keptByCleanup now) }

/-- The sort key of .sort({createdAt: -1}): newest first. -/
def createdDesc (a b : RefreshTokenRec) : Prop :=
  b.createdAt ≤ a.createdAt

instance : DecidableRel createdDesc :=
  fun a b => inferInstanceAs (Decidable (b.createdAt ≤ a.createdAt))

instance : IsTotal RefreshTokenRec createdDesc :=
  ⟨fun a b => Nat.le_total b.createdAt a.createdAt⟩

instance : IsTrans RefreshTokenRec createdDesc :=
  ⟨fun _ _ _ h1 h2 => Nat.le_trans h2 h1⟩

/-- The find filter of TokenManager.getUserActiveSessions:
{userId, isActive: true, expiresAt: {$gt: now}}. -/
def sessionFilter (uid : String) (now : Nat) (r : RefreshTokenRec) : Bool :=
  r.userId == uid && r.isActive && decide (now < r.expiresAt)

/-- TokenManager.getUserActiveSessions: the filtered documents sorted
newest first; the full documents are returned, with no field
projection. -/
def getUserActiveSessions (db : DB) (now : Nat) (uid : String) :
    List RefreshTokenRec :=
  List.insertionSort createdDesc (db.tokens.filter (sessionFilter uid now))

/-- No record in the list holds this raw token. -/
def tokenAbsent (t : RToken) : List RefreshTokenRec → Bool
  | [] => true
  | r :: rest => r.token != t && tokenAbsent t rest

/-- The schema-level unique index on the token field: pairwise distinct
raw tokens. -/
def uniqueTokens : List RefreshTokenRec → Bool
  | [] => true
  | r :: rest => tokenAbsent r.token rest && uniqueTokens rest

/-- No record in the list carries this store-assigned id. -/
def idAbsent (i : Nat) : List RefreshTokenRec → Bool
  | [] => true
  | r :: rest => r.id != i && idAbsent i rest

/-- Store-assigned ids are pairwise distinct. -/
def uniqueIds : List RefreshTokenRec → Bool
  | [] => true
  | r :: rest => idAbsent r.id rest && uniqueIds rest

/-- A token already in the store never collides with a future entropy
draw. -/
def tokenFresh (e : Nat) : RToken → Bool
  | .gen k => decide (k < e)
  | .ext _ => true

/-- Store well-formedness maintained by the real store: unique ids and
tokens, ids below the id counter, stored tokens older than the entropy
counter. -/
def wfStore (db : DB) : Bool :=
  uniqueIds db.tokens && uniqueTokens db.tokens &&
  db.tokens.all (fun x => decide (x.id < db.nextId)) &&
  db.tokens.all (fun x => tokenFresh db.entropy x.token)

instance {ε α : Type} [DecidableEq ε] [DecidableEq α] : DecidableEq (Except ε α) := fun x y =>
  match x, y with
  | .error a, .error b =>
      if h : a = b then .isTrue (by rw [h])
      else .isFalse (by intro hc; injection hc; contradiction)
  | .ok a, .ok b =>
      if h : a = b then .isTrue (by rw [h])
      else .isFalse (by intro hc; injection hc; contradiction)
  | .error _, .ok _ => .isFalse (by intro hc; injection hc)
  | .ok _, .error _ => .isFalse (by intro hc; injection hc)

/-- A sample active user for concrete executions. -/
def sampleUser : UserRec :=
  { id := "u1", role := "tenant", email := "u1@mail.co", isActive := true }

/-- A store holding only the sample user and no refresh-token records. -/
def scenDb0 : DB := { tokens := [], users := [sampleUser], nextId := 0, entropy := 0 }

/-- issue("u1") on the empty store: the pair (a1, r1) and the store
after it. -/
def scenIssue : TokenPair × DB := generateTokenPair scenDb0 0 sampleUser none

/-- refresh(r1) on the store left by the issue. -/
def scenRefresh1 : Except AppError TokenPair × DB :=
  refreshAccessToken scenIssue.2 1 scenIssue.1.refreshToken none

/-- A second refresh(r1): a replay of the already-rotated token. -/
def scenRefresh2 : Except AppError TokenPair × DB :=
  refreshAccessToken scenRefresh1.2 2 scenIssue.1.refreshToken none

/-- refresh(r2), where r2 = RToken.gen 1 is the raw token returned by
the first refresh. -/
def scenRefresh3 : Except AppError TokenPair × DB :=
  refreshAccessToken scenRefresh2.2 3 (RToken.gen 1) none

/-- One active, far-from-expiry record holding raw token gen 0. -/
def raceRecord : RefreshTokenRec :=
  { id := 0, userId := "u1", token := .gen 0, expiresAt := 604800000,
    isActive := true, deviceInfo := none, createdAt := 0, updatedAt := 0 }

/-- Store with the single active record and its active owner. -/
def raceDb0 : DB :=
  { tokens := [raceRecord], users := [sampleUser], nextId := 1, entropy := 1 }

/-- Interleaving of two refresh(gen 0) calls A and B: both lookups run
against raceDb0 (the findOne of B commits before the deactivation of A lands);
then A saves its new pair... -/
def raceIssueA : TokenPair × DB := generateTokenPair raceDb0 1 sampleUser none

/-- Next step of the schedule: A deactivates the old record. -/
def raceDbA : DB :=
  { raceIssueA.2 with tokens := deactivateById 1 raceRecord.id raceIssueA.2.tokens }

/-- Next step of the schedule: B saves its new pair. -/
def raceIssueB : TokenPair × DB := generateTokenPair raceDbA 1 sampleUser none

/-- Last step of the schedule: B deactivates the old record again
(unconditionally, without noticing it was already inactive). -/
def raceDbFinal : DB :=
  { raceIssueB.2 with tokens := deactivateById 1 raceRecord.id raceIssueB.2.tokens }

/-- A sequential successful refresh on raceDb0. -/
def seqRun1 : Except AppError TokenPair × DB :=
  refreshAccessToken raceDb0 1 (RToken.gen 0) none

/-- The pair that sequential refresh returns. -/
def seqPair1 : TokenPair :=
  { accessToken := generateAccessToken sampleUser 1, refreshToken := RToken.gen 1 }

/-- An already-inactive record holding raw token gen 9. -/
def inactiveRecord : RefreshTokenRec :=
  { id := 5, userId := "u1", token := .gen 9, expiresAt := 604800000,
    isActive := false, deviceInfo := none, createdAt := 0, updatedAt := 0 }

/-- Store holding only the inactive record. -/
def inactiveDb : DB :=
  { tokens := [inactiveRecord], users := [sampleUser], nextId := 6, entropy := 10 }

/-- A deactivated user account. -/
def inactiveUser : UserRec :=
  { id := "u2", role := "tenant", email := "u2@mail.co", isActive := false }

/-- An active, unexpired record owned by the deactivated user. -/
def lockedRecord : RefreshTokenRec :=
  { id := 0, userId := "u2", token := .gen 0, expiresAt := 604800000,
    isActive := true, deviceInfo := none, createdAt := 0, updatedAt := 0 }

/-- Store pairing the active record with its deactivated owner. -/
def lockedDb : DB :=
  { tokens := [lockedRecord], users := [inactiveUser], nextId := 1, entropy := 1 }

/-- A record that expired one millisecond before now = 1000 and was
updated at now: expired, but far newer than any retention window. -/
def freshExpiredRecord : RefreshTokenRec :=
  { id := 0, userId := "u1", token := .gen 0, expiresAt := 999,
    isActive := true, deviceInfo := none, createdAt := 0, updatedAt := 1000 }

/-- Store holding only the freshly expired record. -/
def freshExpiredDb : DB :=
  { tokens := [freshExpiredRecord], users := [sampleUser], nextId := 1, entropy := 1 }

/-- A well-formed, correctly signed, unexpired token that carries a
wrong type claim (a refresh-type marker inside an access token). -/
def typedToken : AccessToken :=
  .signed { payload := { userId := "u1", role := "tenant", email := "u1@mail.co" },
            typClaim := some "refresh", secret := ACCESS_TOKEN_SECRET, exp := 100 }

/-- The findOne filter holds exactly on a live record with this token. -/
lemma matchesActive_iff {t : RToken} {now : Nat} {r : RefreshTokenRec} :
    matchesActive t now r = true ↔
      r.token = t ∧ r.isActive = true ∧ now < r.expiresAt := by
  simp [matchesActive, and_assoc]

/-- The session filter holds exactly on a live record of this user. -/
lemma sessionFilter_iff {uid : String} {now : Nat} {r : RefreshTokenRec} :
    sessionFilter uid now r = true ↔
      r.userId = uid ∧ r.isActive = true ∧ now < r.expiresAt := by
  simp [sessionFilter, and_assoc]

/-- When every record holding the token is inactive or expired (in
particular when none holds it), the lookup fails with the unified
INVALID_REFRESH_TOKEN error. -/
lemma verifyRefreshToken_none (db : DB) (now : Nat) (t : RToken)
    (h : ∀ r ∈ db.tokens, r.token = t → r.isActive = false ∨ r.expiresAt ≤ now) :
    verifyRefreshToken db now t = .error invalidRefreshError := by
  have hf : findActiveRecord db now t = none := by
    rw [findActiveRecord, List.find?_eq_none]
    intro x hx hpx
    rcases matchesActive_iff.mp hpx with ⟨h1, h2, h3⟩
    rcases h x hx h1 with h4 | h4
    · rw [h2] at h4; cases h4
    · exact absurd h3 (Nat.not_lt.mpr h4)
  rw [verifyRefreshToken, hf]

/-- A successful lookup returns a stored record that holds the presented
raw token, is active, and is unexpired. -/
lemma verifyRefreshToken_ok {db : DB} {now : Nat} {t : RToken} {r : RefreshTokenRec}
    (h : verifyRefreshToken db now t = .ok r) :
    r ∈ db.tokens ∧ r.token = t ∧ r.isActive = true ∧ now < r.expiresAt := by
  rw [verifyRefreshToken] at h
  cases hf : findActiveRecord db now t with
  | none => rw [hf] at h; cases h
  | some x =>
    rw [hf] at h
    injection h with hxr
    rw [findActiveRecord] at hf
    subst hxr
    exact ⟨List.mem_of_find?_eq_some hf, matchesActive_iff.mp (List.find?_some hf)⟩

lemma tokenAbsent_iff {t : RToken} {l : List RefreshTokenRec} :
    tokenAbsent t l = true ↔ ∀ x ∈ l, x.token ≠ t := by
  induction l with
  | nil => simp [tokenAbsent]
  | cons a rest ih => simp [tokenAbsent, ih]

lemma idAbsent_iff {i : Nat} {l : List RefreshTokenRec} :
    idAbsent i l = true ↔ ∀ x ∈ l, x.id ≠ i := by
  induction l with
  | nil => simp [idAbsent]
  | cons a rest ih => simp [idAbsent, ih]

/-- The boolean token-uniqueness check is pairwise distinctness. -/
lemma uniqueTokens_iff {l : List RefreshTokenRec} :
    uniqueTokens l = true ↔ l.Pairwise (fun a b => a.token ≠ b.token) := by
  induction l with
  | nil => simp [uniqueTokens]
  | cons a rest ih =>
    rw [uniqueTokens, Bool.and_eq_true, ih, tokenAbsent_iff, List.pairwise_cons]
    constructor
    · rintro ⟨h1, h2⟩
      exact ⟨fun b hb => Ne.symm (h1 b hb), h2⟩
    · rintro ⟨h1, h2⟩
      exact ⟨fun b hb => Ne.symm (h1 b hb), h2⟩

/-- The boolean id-uniqueness check is pairwise distinctness. -/
lemma uniqueIds_iff {l : List RefreshTokenRec} :
    uniqueIds l = true ↔ l.Pairwise (fun a b => a.id ≠ b.id) := by
  induction l with
  | nil => simp [uniqueIds]
  | cons a rest ih =>
    rw [uniqueIds, Bool.and_eq_true, ih, idAbsent_iff, List.pairwise_cons]
    constructor
    · rintro ⟨h1, h2⟩
      exact ⟨fun b hb => Ne.symm (h1 b hb), h2⟩
    · rintro ⟨h1, h2⟩
      exact ⟨fun b hb => Ne.symm (h1 b hb), h2⟩

/-- The store state generateTokenPair persists. -/
lemma generateTokenPair_tokens (db : DB) (now : Nat) (u : UserRec) (dev : Option DeviceInfo) :
    (generateTokenPair db now u dev).2.tokens = db.tokens ++ [issuedRecord db now u dev] := rfl

/-- With ids and tokens unique, findByIdAndUpdate on the id of a stored
record leaves no active record holding the token of that record. -/
lemma deactivateById_kills_token {l : List RefreshTokenRec} {now : Nat} {r : RefreshTokenRec}
    (hid : l.Pairwise (fun a b => a.id ≠ b.id))
    (htok : l.Pairwise (fun a b => a.token ≠ b.token))
    (hr : r ∈ l) :
    ∀ y ∈ deactivateById now r.id l, y.token = r.token → y.isActive = false := by
  induction l with
  | nil => intro y hy; cases hy
  | cons a rest ih =>
    rw [List.pairwise_cons] at hid htok
    rw [deactivateById]
    by_cases hcase : a.id = r.id
    · rw [if_pos (by simp [hcase])]
      intro y hy hyt
      rcases List.mem_cons.mp hy with rfl | hy2
      · rfl
      · rcases List.mem_cons.mp hr with rfl | hr2
        · exact absurd hyt.symm (htok.1 y hy2)
        · exact absurd hcase (hid.1 r hr2)
    · rw [if_neg (by simp [hcase])]
      have hr2 : r ∈ rest := by
        rcases List.mem_cons.mp hr with rfl | hr2
        · exact absurd rfl hcase
        · exact hr2
      intro y hy hyt
      rcases List.mem_cons.mp hy with rfl | hy2
      · exact absurd (htok.1 r hr2) (by rw [hyt]; exact fun hne => hne rfl)
      · exact ih hid.2 htok.2 hr2 y hy2 hyt

/-- findOneAndUpdate that matches no active record is a no-op. -/
lemma deactivateFirstActive_eq_self (now : Nat) (t : RToken) (l : List RefreshTokenRec)
    (h : ∀ r ∈ l, r.token = t → r.isActive = false) :
    deactivateFirstActive now t l = l := by
  induction l with
  | nil => rfl
  | cons a rest ih =>
    rw [deactivateFirstActive]
    have hcond : (a.token == t && a.isActive) = false := by
      by_cases hat : a.token = t
      · simp [h a (List.mem_cons_self a rest) hat]
      · simp [hat]
    rw [if_neg (by simp [hcond])]
    rw [ih (fun r hr hrt => h r (List.mem_cons_of_mem a hr) hrt)]

/-- After one findOneAndUpdate, a token-unique store holds no active
record with that token any more. -/
lemma deactivateFirstActive_no_active (now : Nat) (t : RToken) (l : List RefreshTokenRec)
    (hu : l.Pairwise (fun a b => a.token ≠ b.token)) :
    ∀ y ∈ deactivateFirstActive now t l, y.token = t → y.isActive = false := by
  induction l with
  | nil => intro y hy; cases hy
  | cons a rest ih =>
    rw [List.pairwise_cons] at hu
    rw [deactivateFirstActive]
    by_cases hcond : (a.token == t && a.isActive) = true
    · rw [if_pos hcond]
      have hat : a.token = t := by
        simp only [Bool.and_eq_true, beq_iff_eq] at hcond
        exact hcond.1
      intro y hy hyt
      rcases List.mem_cons.mp hy with rfl | hy2
      · rfl
      · exact absurd (hat.trans hyt.symm) (hu.1 y hy2)
    · rw [if_neg hcond]
      intro y hy hyt
      rcases List.mem_cons.mp hy with rfl | hy2
      · cases ha : y.isActive
        · rfl
        · exact absurd (by rw [hyt, ha]; simp) hcond
      · exact ih hu.2 y hy2 hyt

/-- The record-survival test of cleanup, spelled out. -/
lemma keptByCleanup_iff {now : Nat} {r : RefreshTokenRec} :
    keptByCleanup now r = true ↔
      ¬(r.expiresAt < now ∨ (r.isActive = false ∧ r.updatedAt + dayMs < now)) := by
  cases hact : r.isActive <;>
    simp [keptByCleanup, hact, not_or, Nat.not_lt]

/-- The two verifyAccessToken failures carry distinct error codes. -/
lemma err_expired_ne_invalid : accessTokenExpiredError ≠ invalidAccessTokenError := by
  decide

/-- Claim C4: starting from an empty store, issue("u1") returns raw
refresh token r1 = gen 0; refresh(r1) succeeds and returns r2 = gen 1
with r2 ≠ r1; a second refresh(r1) fails with the RefreshInvalid error;
and refresh(r2) succeeds, returning r3 = gen 2. -/
theorem scenario_issue_refresh_replay :
    scenIssue.1.refreshToken = RToken.gen 0
  ∧ scenRefresh1.1.toOption.map TokenPair.refreshToken = some (RToken.gen 1)
  ∧ RToken.gen 1 ≠ RToken.gen 0
  ∧ scenRefresh2.1 = .error invalidRefreshError
  ∧ scenRefresh3.1.toOption.map TokenPair.refreshToken = some (RToken.gen 2) := by
  decide

/-- Claim C5: a raw refresh token whose record is absent, inactive, or
expired (expiresAt ≤ now) makes refresh fail with the single unified
INVALID_REFRESH_TOKEN error and leaves the store unchanged; conversely
the lookup only ever returns a stored record that holds the token, is
active, and has expiresAt > now. -/
theorem refresh_unified_invalid_error :
    (∀ db now t dev,
       (∀ r ∈ db.tokens, r.token = t → r.isActive = false ∨ r.expiresAt ≤ now) →
       refreshAccessToken db now t dev = (.error invalidRefreshError, db))
  ∧ (∀ db now t r, verifyRefreshToken db now t = .ok r →
       r ∈ db.tokens ∧ r.token = t ∧ r.isActive = true ∧ now < r.expiresAt) := by
  constructor
  · intro db now t dev h
    rw [refreshAccessToken, verifyRefreshToken_none db now t h]
  · intro db now t r h
    exact verifyRefreshToken_ok h

/-- Witness for C5: on a store whose only gen-9 record is inactive,
refresh(gen 9) fails with the unified error; and on a store with a live
gen-0 record, the lookup returns it with its live properties. -/
theorem refresh_unified_invalid_error_witness :
    refreshAccessToken inactiveDb 1 (RToken.gen 9) none = (.error invalidRefreshError, inactiveDb)
  ∧ (raceRecord ∈ raceDb0.tokens ∧ raceRecord.token = RToken.gen 0
      ∧ raceRecord.isActive = true ∧ 1 < raceRecord.expiresAt) :=
  ⟨refresh_unified_invalid_error.1 inactiveDb 1 (RToken.gen 9) none (by decide),
   refresh_unified_invalid_error.2 raceDb0 1 (RToken.gen 0) raceRecord (by decide)⟩

/-- Claim C10: when the lookup succeeds but the populated owning user is
missing or deactivated, refresh fails with the USER_INACTIVE error and
the store is unchanged: no new record is created and the old record is
not deactivated. -/
theorem refresh_requires_active_user (db : DB) (now : Nat) (t : RToken)
    (dev : Option DeviceInfo) (r : RefreshTokenRec)
    (hv : verifyRefreshToken db now t = .ok r)
    (hu : ∀ u, findUser db r.userId = some u → u.isActive = false) :
    refreshAccessToken db now t dev = (.error userInactiveError, db) := by
  simp only [refreshAccessToken, hv]
  cases hf : findUser db r.userId with
  | none => rfl
  | some u => simp [hu u hf]

/-- Witness for C10: a live record owned by a deactivated user makes
refresh fail with USER_INACTIVE and leaves the store untouched. -/
theorem refresh_requires_active_user_witness :
    refreshAccessToken lockedDb 1 (RToken.gen 0) none = (.error userInactiveError, lockedDb) :=
  refresh_requires_active_user lockedDb 1 (RToken.gen 0) none lockedRecord (by decide)
    (fun u hu => by
      have hiu : findUser lockedDb lockedRecord.userId = some inactiveUser := by decide
      rw [hiu] at hu
      injection hu with hu2
      rw [← hu2]
      rfl)

/-- Claim C2 counterexample: issuing on the empty store persists a
record whose token field is the very raw refresh token returned to the
caller — the store contains the raw value, not only a hash of it. -/
theorem raw_refresh_token_persisted :
    scenDb0.tokens = []
  ∧ scenIssue.2.tokens.map RefreshTokenRec.token = [scenIssue.1.refreshToken] := by
  decide

/-- Claim C2 amended: issue persists an active record whose token field
holds the raw refresh token itself (no hash is computed), and the lookup
compares the stored raw token for equality with the presented raw
token. -/
theorem stored_token_field_holds_raw_value :
    (∀ db now u dev, ∃ r ∈ (generateTokenPair db now u dev).2.tokens,
        r.token = (generateTokenPair db now u dev).1.refreshToken ∧ r.isActive = true)
  ∧ (∀ db now t r, verifyRefreshToken db now t = .ok r → r.token = t) := by
  constructor
  · intro db now u dev
    refine ⟨issuedRecord db now u dev, ?_, rfl, rfl⟩
    rw [generateTokenPair_tokens]
    exact List.mem_append_right db.tokens (List.mem_singleton.mpr rfl)
  · intro db now t r h
    exact (verifyRefreshToken_ok h).2.1

/-- Witness for the amended C2: concrete issue stores the raw gen-0
token it returns, and a concrete lookup returns the record holding the
presented raw token. -/
theorem stored_token_field_holds_raw_value_witness :
    (∃ r ∈ (generateTokenPair scenDb0 0 sampleUser none).2.tokens,
        r.token = (generateTokenPair scenDb0 0 sampleUser none).1.refreshToken
        ∧ r.isActive = true)
  ∧ raceRecord.token = RToken.gen 0 :=
  ⟨stored_token_field_holds_raw_value.1 scenDb0 0 sampleUser none,
   stored_token_field_holds_raw_value.2 raceDb0 1 (RToken.gen 0) raceRecord (by decide)⟩

/-- Claim C9 counterexample: a record that expired one millisecond ago
and was updated at this very instant — expired, but not older than any
retention window — is nevertheless deleted by cleanup, because the code
deletes every record with expiresAt < now unconditionally. -/
theorem cleanup_deletes_recent_expired :
    freshExpiredRecord.expiresAt ≤ 1000
  ∧ 1000 < freshExpiredRecord.updatedAt + dayMs
  ∧ 1000 < freshExpiredRecord.expiresAt + dayMs
  ∧ (cleanupExpiredTokens freshExpiredDb 1000).tokens = [] := by
  decide

/-- Claim C9 amended: cleanup keeps exactly the stored records that are
neither already expired (expiresAt < now, regardless of age) nor
inactive with updatedAt older than the 24-hour retention window; in
particular every active, unexpired record survives with all fields
intact. -/
theorem cleanup_exact_deletion (db : DB) (now : Nat) :
    (∀ r, r ∈ (cleanupExpiredTokens db now).tokens ↔
       r ∈ db.tokens ∧
         ¬(r.expiresAt < now ∨ (r.isActive = false ∧ r.updatedAt + dayMs < now)))
  ∧ (∀ r ∈ db.tokens, r.isActive = true → now ≤ r.expiresAt →
       r ∈ (cleanupExpiredTokens db now).tokens) := by
  have hmem : ∀ r, r ∈ (cleanupExpiredTokens db now).tokens ↔
      r ∈ db.tokens ∧ keptByCleanup now r = true := by
    intro r
    rw [cleanupExpiredTokens]
    exact List.mem_filter
  constructor
  · intro r
    rw [hmem r]
    exact and_congr_right (fun _ => keptByCleanup_iff)
  · intro r hr ha he
    rw [hmem r]
    refine ⟨hr, keptByCleanup_iff.mpr ?_⟩
    rintro (hexp | ⟨hina, _⟩)
    · exact absurd he (Nat.not_le.mpr hexp)
    · rw [ha] at hina; cases hina

/-- Witness for the amended C9: the live record of raceDb0 survives a
cleanup at now = 10 untouched. -/
theorem cleanup_exact_deletion_witness :
    raceRecord ∈ (cleanupExpiredTokens raceDb0 10).tokens :=
  (cleanup_exact_deletion raceDb0 10).2 raceRecord (by decide) (by decide) (by decide)

/-- Claim C3 counterexample: getUserActiveSessions returns the stored
documents themselves, token field included — the raw stored credential
is exposed, not a {id, deviceInfo, createdAt} projection. -/
theorem sessions_expose_stored_token :
    (getUserActiveSessions raceDb0 10 "u1").map RefreshTokenRec.token = [RToken.gen 0] := by
  decide

/-- Claim C3 amended: getUserActiveSessions returns exactly the given user id having
active, unexpired stored records, ordered newest first by createdAt, as
full records (the stored token field is returned along with id,
deviceInfo, and createdAt). -/
theorem sessions_active_sorted_full_records (db : DB) (now : Nat) (uid : String) :
    List.Perm (getUserActiveSessions db now uid) (db.tokens.filter (sessionFilter uid now))
  ∧ List.Sorted createdDesc (getUserActiveSessions db now uid)
  ∧ ∀ r ∈ getUserActiveSessions db now uid,
      r ∈ db.tokens ∧ r.userId = uid ∧ r.isActive = true ∧ now < r.expiresAt := by
  refine ⟨List.perm_insertionSort createdDesc _, List.sorted_insertionSort createdDesc _, ?_⟩
  intro r hr
  have hmem : r ∈ db.tokens.filter (sessionFilter uid now) :=
    (List.perm_insertionSort createdDesc _).mem_iff.mp hr
  rcases List.mem_filter.mp hmem with ⟨h1, h2⟩
  rcases sessionFilter_iff.mp h2 with ⟨h3, h4, h5⟩
  exact ⟨h1, h3, h4, h5⟩

/-- Witness for the amended C3: the single live session of raceDb0 is
returned as the full stored record with all its live properties. -/
theorem sessions_active_sorted_full_records_witness :
    raceRecord ∈ raceDb0.tokens ∧ raceRecord.userId = "u1"
  ∧ raceRecord.isActive = true ∧ 10 < raceRecord.expiresAt :=
  (sessions_active_sorted_full_records raceDb0 10 "u1").2.2 raceRecord (by decide)

/-- Claim C7: revoke is total (modelled as a plain state function, it
throws nothing); on a store whose records for the token are all inactive
or absent it is a no-op, and on a token-unique store revoking twice
leaves exactly the state of revoking once. -/
theorem revoke_idempotent_never_errors :
    (∀ db now t, (∀ r ∈ db.tokens, r.token = t → r.isActive = false) →
       revokeRefreshToken db now t = db)
  ∧ (∀ db now1 now2 t, uniqueTokens db.tokens = true →
       revokeRefreshToken (revokeRefreshToken db now1 t) now2 t
         = revokeRefreshToken db now1 t) := by
  constructor
  · intro db now t h
    rw [revokeRefreshToken, deactivateFirstActive_eq_self now t db.tokens h]
  · intro db now1 now2 t hu
    have hnone := deactivateFirstActive_no_active now1 t db.tokens (uniqueTokens_iff.mp hu)
    simp only [revokeRefreshToken]
    congr 1
    exact deactivateFirstActive_eq_self now2 t _ hnone

/-- Witness for C7: revoking the gen-9 token on its already-inactive
store changes nothing, and double revoke on raceDb0 equals single
revoke. -/
theorem revoke_idempotent_never_errors_witness :
    revokeRefreshToken inactiveDb 3 (RToken.gen 9) = inactiveDb
  ∧ revokeRefreshToken (revokeRefreshToken raceDb0 3 (RToken.gen 0)) 4 (RToken.gen 0)
      = revokeRefreshToken raceDb0 3 (RToken.gen 0) :=
  ⟨revoke_idempotent_never_errors.1 inactiveDb 3 (RToken.gen 9) (by decide),
   revoke_idempotent_never_errors.2 raceDb0 3 4 (RToken.gen 0) (by decide)⟩

/-- Claim C8: after revokeAllUserTokens(u) every stored record owned by
u is inactive, getUserActiveSessions(u) returns the empty sequence
immediately afterwards (at any instant), and records of other users are
still present unchanged. -/
theorem revoke_all_sessions_empties_user (db : DB) (now now2 : Nat) (uid : String) :
    (∀ r ∈ (revokeAllUserTokens db now uid).tokens, r.userId = uid → r.isActive = false)
  ∧ getUserActiveSessions (revokeAllUserTokens db now uid) now2 uid = []
  ∧ (∀ r ∈ db.tokens, r.userId ≠ uid → r ∈ (revokeAllUserTokens db now uid).tokens) := by
  have hpart1 : ∀ r ∈ (revokeAllUserTokens db now uid).tokens,
      r.userId = uid → r.isActive = false := by
    intro r hr hru
    rw [revokeAllUserTokens] at hr
    rcases List.mem_map.mp hr with ⟨x, hx, hfx⟩
    by_cases hcond : (x.userId == uid && x.isActive) = true
    · rw [if_pos hcond] at hfx
      rw [← hfx]
    · rw [if_neg hcond] at hfx
      rw [← hfx] at hru ⊢
      simp only [Bool.and_eq_true, beq_iff_eq, not_and] at hcond
      cases ha : x.isActive
      · rfl
      · exact absurd ha (hcond hru)
  refine ⟨hpart1, ?_, ?_⟩
  · rw [getUserActiveSessions]
    have hnil : (revokeAllUserTokens db now uid).tokens.filter (sessionFilter uid now2) = [] := by
      rw [List.filter_eq_nil_iff]
      intro a ha hsa
      rcases sessionFilter_iff.mp hsa with ⟨h1, h2, _⟩
      rw [hpart1 a ha h1] at h2
      cases h2
    rw [hnil]
    rfl
  · intro r hr hne
    rw [revokeAllUserTokens]
    refine List.mem_map.mpr ⟨r, hr, ?_⟩
    rw [if_neg]
    simp [hne]

/-- Witness for C8: revoking all sessions of u1 on raceDb0 leaves its
only record inactive, empties the session list, and keeps the record of
the other-user store lockedDb intact when the sessions of u1 are revoked
there. -/
theorem revoke_all_sessions_empties_user_witness :
    ({ raceRecord with isActive := false, updatedAt := 4 }).isActive = false
  ∧ getUserActiveSessions (revokeAllUserTokens raceDb0 4 "u1") 5 "u1" = []
  ∧ lockedRecord ∈ (revokeAllUserTokens lockedDb 4 "u1").tokens :=
  ⟨(revoke_all_sessions_empties_user raceDb0 4 5 "u1").1
      { raceRecord with isActive := false, updatedAt := 4 } (by decide) (by decide),
   (revoke_all_sessions_empties_user raceDb0 4 5 "u1").2.1,
   (revoke_all_sessions_empties_user lockedDb 4 5 "u1").2.2 lockedRecord (by decide) (by decide)⟩

/-- Claim C6 counterexample: typedToken is well-formed, signed with the
access secret, unexpired, but carries a wrong embedded type claim (a
refresh marker); the claim requires verifyAccessToken to reject it with
InvalidAccessToken, yet the code accepts it and returns the payload — no
type claim is embedded or checked anywhere in the code. -/
theorem wrong_type_token_accepted :
    verifyAccessToken typedToken 0 =
      .ok { userId := "u1", role := "tenant", email := "u1@mail.co" }
  ∧ verifyAccessToken typedToken 0 ≠ .error invalidAccessTokenError := by
  decide

/-- Claim C6 amended: verifyAccessToken fails with ACCESS_TOKEN_EXPIRED
exactly when the token is well-formed and correctly signed but now >
exp, and fails with the distinct INVALID_ACCESS_TOKEN error exactly when
the token is malformed or its signature was made with a different
secret; no embedded type is checked.  The two failure kinds carry
distinct error codes, so callers can tell them apart. -/
theorem verify_access_error_classes (t : AccessToken) (now : Nat) :
    (verifyAccessToken t now = .error accessTokenExpiredError ↔
       ∃ j, t = .signed j ∧ j.secret = ACCESS_TOKEN_SECRET ∧ j.exp < now)
  ∧ (verifyAccessToken t now = .error invalidAccessTokenError ↔
       ((∃ s, t = .malformed s) ∨ ∃ j, t = .signed j ∧ j.secret ≠ ACCESS_TOKEN_SECRET))
  ∧ accessTokenExpiredError ≠ invalidAccessTokenError := by
  cases t with
  | malformed s =>
    have hval : verifyAccessToken (.malformed s) now = .error invalidAccessTokenError := rfl
    rw [hval]
    refine ⟨⟨?_, ?_⟩, ⟨?_, ?_⟩, err_expired_ne_invalid⟩
    · intro h
      injection h with h2
      exact absurd h2.symm err_expired_ne_invalid
    · rintro ⟨j, hj, -, -⟩
      simp at hj
    · intro _
      exact Or.inl ⟨s, rfl⟩
    · intro _
      rfl
  | signed j =>
    by_cases hs : j.secret = ACCESS_TOKEN_SECRET
    · by_cases he : j.exp < now
      · have hval : verifyAccessToken (.signed j) now = .error accessTokenExpiredError := by
          simp only [verifyAccessToken, jwtVerify]
          rw [if_neg (fun hne => hne hs), if_pos he]
        rw [hval]
        refine ⟨⟨?_, ?_⟩, ⟨?_, ?_⟩, err_expired_ne_invalid⟩
        · intro _
          exact ⟨j, rfl, hs, he⟩
        · intro _
          rfl
        · intro h
          injection h with h2
          exact absurd h2 err_expired_ne_invalid
        · rintro (⟨s, hs2⟩ | ⟨j2, hj2, hns⟩)
          · simp at hs2
          · injection hj2 with hj3
            rw [← hj3] at hns
            exact absurd hs hns
      · have hval : verifyAccessToken (.signed j) now = .ok j.payload := by
          simp only [verifyAccessToken, jwtVerify]
          rw [if_neg (fun hne => hne hs), if_neg he]
        rw [hval]
        refine ⟨⟨?_, ?_⟩, ⟨?_, ?_⟩, err_expired_ne_invalid⟩
        · intro h
          cases h
        · rintro ⟨j2, hj2, -, he2⟩
          injection hj2 with hj3
          rw [← hj3] at he2
          exact absurd he2 he
        · intro h
          cases h
        · rintro (⟨s, hs2⟩ | ⟨j2, hj2, hns⟩)
          · simp at hs2
          · injection hj2 with hj3
            rw [← hj3] at hns
            exact absurd hs hns
    · have hval : verifyAccessToken (.signed j) now = .error invalidAccessTokenError := by
        simp only [verifyAccessToken, jwtVerify]
        rw [if_pos hs]
      rw [hval]
      refine ⟨⟨?_, ?_⟩, ⟨?_, ?_⟩, err_expired_ne_invalid⟩
      · intro h
        injection h with h2
        exact absurd h2.symm err_expired_ne_invalid
      · rintro ⟨j2, hj2, hs2, -⟩
        injection hj2 with hj3
        rw [← hj3] at hs2
        exact absurd hs2 hs
      · intro _
        exact Or.inr ⟨j, rfl, hs⟩
      · intro _
        rfl

/-- Claim C1 counterexample: an interleaving of two refresh(gen 0) calls
A and B on raceDb0 in which both findOne lookups commit before the
deactivation by A lands.  The code orders each call as findOne, then save of
the new pair, then an unconditional findByIdAndUpdate of the old record
— there is no conditional-update gate before issuance — so both calls
pass every check and complete: the final store holds two distinct new
active records, both derived from the one raw token gen 0, i.e. two
refresh calls succeeded on one physical record. -/
theorem refresh_race_double_issuance :
    verifyRefreshToken raceDb0 1 (RToken.gen 0) = .ok raceRecord
  ∧ (findUser raceDb0 raceRecord.userId).map UserRec.isActive = some true
  ∧ raceIssueA.1.refreshToken ≠ raceIssueB.1.refreshToken
  ∧ raceIssueA.1.refreshToken ≠ RToken.gen 0
  ∧ raceIssueB.1.refreshToken ≠ RToken.gen 0
  ∧ (∃ rA ∈ raceDbFinal.tokens, rA.token = raceIssueA.1.refreshToken ∧ rA.isActive = true)
  ∧ (∃ rB ∈ raceDbFinal.tokens, rB.token = raceIssueB.1.refreshToken ∧ rB.isActive = true) := by
  decide

/-- Claim C1 amended: under sequential execution a well-formed store
admits at most one successful refresh per record — after one success,
refreshing the same raw token again fails with RefreshInvalid and leaves
the store unchanged — because the unconditional post-issuance
deactivation has already flipped the unique record holding that token.
(The conditional-deactivate-before-issue ordering of the claim is not
what the code does, and interleaved calls can double-issue.) -/
theorem refresh_sequential_single_rotation (db db1 : DB) (now now2 : Nat)
    (t : RToken) (dev dev2 : Option DeviceInfo) (pair : TokenPair)
    (hwf : wfStore db = true)
    (h : refreshAccessToken db now t dev = (.ok pair, db1)) :
    refreshAccessToken db1 now2 t dev2 = (.error invalidRefreshError, db1) := by
  simp only [wfStore, Bool.and_eq_true, List.all_eq_true] at hwf
  obtain ⟨⟨⟨hid, htok⟩, hids⟩, hfresh⟩ := hwf
  simp only [refreshAccessToken] at h
  split at h
  next e heq => simp at h
  next r heq =>
    split at h
    next hequ => simp at h
    next u hequ =>
      split at h
      next hact => simp at h
      next hact =>
        rw [Prod.mk.injEq] at h
        obtain ⟨hpair, hdb1⟩ := h
        obtain ⟨hmem, htk, hact2, hexp⟩ := verifyRefreshToken_ok heq
        have hidL : (db.tokens ++ [issuedRecord db now u dev]).Pairwise
            (fun a b => a.id ≠ b.id) := by
          rw [List.pairwise_append]
          refine ⟨uniqueIds_iff.mp hid, List.pairwise_singleton _ _, ?_⟩
          intro a ha b hb
          rw [List.mem_singleton.mp hb]
          exact Nat.ne_of_lt (of_decide_eq_true (hids a ha))
        have htokL : (db.tokens ++ [issuedRecord db now u dev]).Pairwise
            (fun a b => a.token ≠ b.token) := by
          rw [List.pairwise_append]
          refine ⟨uniqueTokens_iff.mp htok, List.pairwise_singleton _ _, ?_⟩
          intro a ha b hb
          rw [List.mem_singleton.mp hb]
          show a.token ≠ RToken.gen db.entropy
          have hfa := hfresh a ha
          cases hta : a.token with
          | gen k =>
            rw [hta] at hfa
            have hk : k < db.entropy := of_decide_eq_true hfa
            intro hcontra
            injection hcontra with hk2
            rw [hk2] at hk
            exact Nat.lt_irrefl _ hk
          | ext s =>
            intro hcontra
            cases hcontra
        have hkill := @deactivateById_kills_token _ now r hidL htokL
          (List.mem_append_left [issuedRecord db now u dev] hmem)
        have hall : ∀ y ∈ db1.tokens, y.token = t →
            y.isActive = false ∨ y.expiresAt ≤ now2 := by
          rw [← hdb1]
          intro y hy hyt
          left
          exact hkill y hy (hyt.trans htk.symm)
        have hverr := verifyRefreshToken_none db1 now2 t hall
        simp only [refreshAccessToken]
        rw [hverr]

/-- Witness for the amended C1: after the sequential refresh seqRun1
succeeds on raceDb0, refreshing gen 0 again fails with RefreshInvalid
and leaves the store as seqRun1 left it. -/
theorem refresh_sequential_single_rotation_witness :
    refreshAccessToken seqRun1.2 2 (RToken.gen 0) none
      = (.error invalidRefreshError, seqRun1.2) :=
  refresh_sequential_single_rotation raceDb0 seqRun1.2 1 2 (RToken.gen 0) none none
    seqPair1 (by decide) (by decide)

end TokenLifecycle
